import Mathlib

/-!
# Verification of the netplan ABI-compat pipeline

Shallow embedding of `src/abi_compat.c` and of the core parse–merge–generate
pipeline it wraps.  The wrapper functions (`netplan_clear_netdefs`,
`netplan_finish_parse`, `write_netplan_conf_full`, `enable_networkd`,
`write_networkd_conf`, `write_nm_conf_finish`, `write_ovs_conf_finish`,
`cleanup_*_conf`, `process_input_file`, `process_yaml_hierarchy`) are
embedded directly from the C source.  The library routines they delegate to
(`netplan_parser_load_yaml`, `netplan_state_import_parser_results`,
`netplan_netdef_write_networkd`, the finish/cleanup passes and the YAML
emitter) are not part of this repository's sources; they are modelled from
the specification, and every such definition is marked
`Modelled from the spec:` in its doc comment.

C-level conventions: GLib hashtable + ordered list become an association
list in first-seen order; `exit(1)` with a printed message becomes the
error side of `Except Fatal`; `GError**` out-parameters become `Except`
results.
-/

namespace Netplan

/-- Backend enum, from the netplan API (`NETPLAN_BACKEND_*`).
`networkd` is the link-state service, `nm` the connection manager,
`ovs` the virtual switch; `unset` means "use the global default". -/
inductive NetplanBackend where
  | unset
  | networkd
  | nm
  | ovs
  deriving DecidableEq, Repr

/-- Entity kinds of network definitions (`NETPLAN_DEF_TYPE_*`). -/
inductive DefKind where
  | ethernet
  | bridge
  | bond
  | vlan
  | tunnel
  | vswitch
  | wifi
  | modem
  deriving DecidableEq, Repr

/-- One logical network definition (`NetplanNetDefinition`): identifier,
entity kind, assigned backend, list-valued properties, origin filename. -/
structure NetplanNetDefinition where
  id : String
  kind : Option DefKind
  backend : NetplanBackend
  addresses : List String
  nameservers : List String
  routes : List String
  filename : String
  deriving DecidableEq, Repr

/-- A definition fragment as read from one document: every field may be
left unspecified (scalars as `none`, lists as possibly empty). -/
structure Fragment where
  id : String
  kind : Option DefKind
  backend : Option NetplanBackend
  addresses : List String
  nameservers : List String
  routes : List String
  deriving DecidableEq, Repr

/-- A YAML input document: a name and the definition fragments it holds. -/
structure YamlFile where
  name : String
  fragments : List Fragment
  deriving DecidableEq, Repr

/-- Append `x` unless already present: one step of the first-seen-order
de-duplicating union of the merge policy. -/
def insertUniq (acc : List String) (x : String) : List String :=
  if acc.contains x then acc else acc ++ [x]

/-- First-seen-order de-duplicating union of two list-valued fields. -/
def listUnion (xs ys : List String) : List String :=
  ys.foldl insertUniq xs

/-- Normalize a fragment's list field: de-duplicate keeping first-seen order. -/
def dedupKeepFirst (xs : List String) : List String :=
  listUnion [] xs

/-- Error taxonomy of the core pipeline (spec §7). -/
inductive CoreError where
  | conflictError (id : String)
  | validationError (id : String)
  deriving DecidableEq, Repr

/-- Parser accumulator (`NetplanParser`): the transient definition table in
first-seen order, plus the accumulated global settings. -/
structure NetplanParser where
  netdefs : List (String × NetplanNetDefinition)
  globalBackend : NetplanBackend
  deriving DecidableEq, Repr

/-- The freshly created / reset parser accumulator. -/
def emptyParser : NetplanParser := { netdefs := [], globalBackend := .unset }

/-- Lookup in an association-list definition table. -/
def findDef (tbl : List (String × NetplanNetDefinition)) (i : String) :
    Option NetplanNetDefinition :=
  match tbl with
  | [] => none
  | (k, d) :: rest => if k = i then some d else findDef rest i

/-- Replace the entry for key `i` in place (first-seen order preserved). -/
def replaceDef (tbl : List (String × NetplanNetDefinition)) (i : String)
    (d : NetplanNetDefinition) : List (String × NetplanNetDefinition) :=
  match tbl with
  | [] => []
  | (k, e) :: rest =>
      if k = i then (k, d) :: rest else (k, e) :: replaceDef rest i d

/-- Modelled from the spec: a brand-new definition built from a fragment
(the library's netdef allocation inside `netplan_parser_load_yaml` is not
in this repository).  List fields are stored de-duplicated in first-seen
order; an unspecified backend means `unset` (use the global default). -/
def defOfFragment (file : String) (f : Fragment) : NetplanNetDefinition :=
  { id := f.id
    kind := f.kind
    backend := f.backend.getD .unset
    addresses := dedupKeepFirst f.addresses
    nameservers := dedupKeepFirst f.nameservers
    routes := dedupKeepFirst f.routes
    filename := file }

/-- Modelled from the spec: the override-merge of a later fragment into an
existing definition (spec §4.2; the merge engine behind
`netplan_parser_load_yaml` is not in this repository): (1) specified kinds
must agree, else `ConflictError`; (2) scalar fields are overwritten by the
later fragment when it specifies them; (3) list fields become the
first-seen-order de-duplicated union. -/
def mergeFragment (file : String) (d : NetplanNetDefinition) (f : Fragment) :
    Except CoreError NetplanNetDefinition :=
  match d.kind, f.kind with
  | some k, some k' =>
      if k = k' then
        .ok { d with
                backend := f.backend.getD d.backend
                addresses := listUnion d.addresses f.addresses
                nameservers := listUnion d.nameservers f.nameservers
                routes := listUnion d.routes f.routes
                filename := file }
      else .error (.conflictError d.id)
  | _, _ =>
      .ok { d with
              kind := f.kind <|> d.kind
              backend := f.backend.getD d.backend
              addresses := listUnion d.addresses f.addresses
              nameservers := listUnion d.nameservers f.nameservers
              routes := listUnion d.routes f.routes
              filename := file }

/-- Modelled from the spec: fold one fragment into the accumulator under
the override policy (spec §4.2). -/
def loadFragment (file : String) (p : NetplanParser) (f : Fragment) :
    Except CoreError NetplanParser :=
  match findDef p.netdefs f.id with
  | none => .ok { p with netdefs := p.netdefs ++ [(f.id, defOfFragment file f)] }
  | some d => do
      let d' ← mergeFragment file d f
      .ok { p with netdefs := replaceDef p.netdefs f.id d' }

/-- Modelled from the spec: `netplan_parser_load_yaml` — read one document
via the external reader and merge each of its top-level entries into the
shared accumulator, aborting at the first conflict (the library routine is
not in this repository; `src/abi_compat.c` only delegates to it). -/
def netplan_parser_load_yaml (p : NetplanParser) (file : YamlFile) :
    Except CoreError NetplanParser :=
  file.fragments.foldlM (loadFragment file.name) p

/-- `netplan_parse_yaml` from `src/abi_compat.c`: load one YAML file into
the global parser accumulator, propagating the error. -/
def netplan_parse_yaml (p : NetplanParser) (file : YamlFile) :
    Except CoreError NetplanParser :=
  netplan_parser_load_yaml p file

/-- Fragment A of the spec's merge scenario. -/
def fragA : Fragment :=
  { id := "eth0", kind := some .ethernet, backend := some .unset
    addresses := ["10.0.0.1"], nameservers := [], routes := [] }

/-- Fragment B of the spec's merge scenario. -/
def fragB : Fragment :=
  { id := "eth0", kind := none, backend := some .nm
    addresses := ["10.0.0.2"], nameservers := [], routes := [] }

/-- The definition obtained for `eth0` after loading fragment A then
fragment B through the load operation. -/
def mergeScenarioResult : Option NetplanNetDefinition :=
  match netplan_parse_yaml emptyParser { name := "a.yaml", fragments := [fragA] } with
  | .error _ => none
  | .ok p =>
      match netplan_parse_yaml p { name := "b.yaml", fragments := [fragB] } with
      | .error _ => none
      | .ok p' => findDef p'.netdefs "eth0"

/-- The finished, validated aggregate (`NetplanState`): definition table
snapshot plus the selected global default backend. -/
structure NetplanState where
  netdefs : List (String × NetplanNetDefinition)
  backend : NetplanBackend
  deriving DecidableEq, Repr

/-- The freshly created / reset state. -/
def emptyState : NetplanState := { netdefs := [], backend := .unset }

/-- `netplan_state_get_netdefs_size`: number of definitions in the state. -/
def netplan_state_get_netdefs_size (s : NetplanState) : Nat :=
  s.netdefs.length

/-- `netplan_state_reset`: discard the state's contents. -/
def netplan_state_reset (_s : NetplanState) : NetplanState := emptyState

/-- `netplan_parser_reset`: discard the accumulator's contents. -/
def netplan_parser_reset (_p : NetplanParser) : NetplanParser := emptyParser

/-- Modelled from the spec: backend inference of import (§4.3) — if no
explicit backend is set, apply the global default, falling back to the
fixed system default (the link-state service). -/
def resolveBackend (g b : NetplanBackend) : NetplanBackend :=
  match b with
  | .unset => match g with | .unset => .networkd | g' => g'
  | b' => b'

/-- Resolve a whole definition's backend against the global default. -/
def resolveDef (g : NetplanBackend) (d : NetplanNetDefinition) :
    NetplanNetDefinition :=
  { d with backend := resolveBackend g d.backend }

/-- Modelled from the spec: the per-definition validation pass of import
(§4.3; the library's validation is not in this repository): identifier
must be non-empty, else `ValidationError`; backends are resolved against
the global default.  Aborts at the first failing definition. -/
def validateAll (g : NetplanBackend) :
    List (String × NetplanNetDefinition) →
    Except CoreError (List (String × NetplanNetDefinition))
  | [] => .ok []
  | (i, d) :: rest =>
      if d.id = "" then .error (.validationError i)
      else do
        let rest' ← validateAll g rest
        .ok ((i, resolveDef g d) :: rest')

/-- Modelled from the spec: `netplan_state_import_parser_results` (not in
this repository) — validate the accumulator and, on success, build the new
State from it and reset the accumulator (single-use transfer); on a
validation failure return the error, with the caller keeping prior state
and accumulator untouched. -/
def netplan_state_import_parser_results (_s : NetplanState)
    (p : NetplanParser) :
    Except CoreError (NetplanState × NetplanParser) :=
  match validateAll p.globalBackend p.netdefs with
  | .error e => .error e
  | .ok tbl => .ok ({ netdefs := tbl, backend := p.globalBackend }, emptyParser)

/-- The process-wide pair of `global_state` and `global_parser` from
`src/abi_compat.c`. -/
structure Global where
  state : NetplanState
  parser : NetplanParser
  deriving DecidableEq, Repr

/-- Both globals in their initial zeroed condition. -/
def emptyGlobal : Global := { state := emptyState, parser := emptyParser }

/-- `netplan_clear_netdefs` from `src/abi_compat.c`: read the state's
definition count, reset state and parser, return the count. -/
def netplan_clear_netdefs (g : Global) : Global × Nat :=
  let n := netplan_state_get_netdefs_size g.state
  ({ state := netplan_state_reset g.state
     parser := netplan_parser_reset g.parser }, n)

/-- `netplan_finish_parse` from `src/abi_compat.c`: import the global
parser results into the global state; on success return the state's
definition table, on failure return NULL (`none`) and leave the globals
as they were. -/
def netplan_finish_parse (g : Global) :
    Global × Option (List (String × NetplanNetDefinition)) :=
  match netplan_state_import_parser_results g.state g.parser with
  | .ok (s', p') => ({ state := s', parser := p' }, some s'.netdefs)
  | .error _ => (g, none)

/-- Concrete definition used by the import witnesses. -/
def defW : NetplanNetDefinition :=
  { id := "eth0", kind := some .ethernet, backend := .unset
    addresses := ["10.0.0.1"], nameservers := [], routes := []
    filename := "w.yaml" }

/-- A populated global pair: one valid definition in the accumulator. -/
def gW : Global :=
  { state := emptyState
    parser := { netdefs := [("eth0", defW)], globalBackend := .unset } }

/-- A global pair whose accumulator fails validation (empty identifier)
while the previously imported state holds one definition. -/
def gBad : Global :=
  { state := { netdefs := [("eth1", { defW with id := "eth1" })]
               backend := .unset }
    parser := { netdefs := [("", { defW with id := "" })]
                globalBackend := .unset } }

/-- A fatal legacy-boundary outcome: the message printed to stderr,
followed by `exit(1)`. -/
structure Fatal where
  message : String
  deriving DecidableEq, Repr

/-- The message carried by a core error (`error->message`). -/
def errorMessage : CoreError → String
  | .conflictError i => "conflicting definition for " ++ i
  | .validationError i => "invalid definition " ++ i

/-- Modelled from the spec: serialize one definition back to a declarative
fragment (YAML emitter, spec §4.6; `netplan_netdef_write_yaml` is not in
this repository).  Every merge-relevant field is emitted; backends in a
State are already resolved, so the emitted backend is explicit. -/
def fragOfDef (d : NetplanNetDefinition) : Fragment :=
  { id := d.id, kind := d.kind, backend := some d.backend
    addresses := d.addresses, nameservers := d.nameservers
    routes := d.routes }

/-- Modelled from the spec: `netplan_state_write_yaml` (declared but not
defined in this repository) — emit the whole State into one document named
by `file_hint`, definitions in specification order (deterministic
output). -/
def netplan_state_write_yaml (s : NetplanState) (file_hint : String) :
    YamlFile :=
  { name := file_hint, fragments := s.netdefs.map (fun e => fragOfDef e.2) }

/-- `write_netplan_conf_full` from `src/abi_compat.c`: call
`netplan_finish_parse` with a NULL error — its return value is discarded —
and then emit the global state as YAML unconditionally. -/
def write_netplan_conf_full (file_hint : String) (g : Global) :
    Global × YamlFile :=
  let g' := (netplan_finish_parse g).1
  (g', netplan_state_write_yaml g'.state file_hint)

/-- `process_input_file` from `src/abi_compat.c`: load one YAML file into
the global parser; on a load error, print the message and `exit(1)`. -/
def process_input_file (g : Global) (f : YamlFile) : Except Fatal Global :=
  match netplan_parser_load_yaml g.parser f with
  | .ok p' => .ok { g with parser := p' }
  | .error e => .error ⟨errorMessage e⟩

/-- A document holding two fragments for `br0` with conflicting kinds
(bridge vs bond): loading it fails with a `ConflictError`. -/
def fileConflict : YamlFile :=
  { name := "c.yaml"
    fragments :=
      [{ id := "br0", kind := some .bridge, backend := none
         addresses := [], nameservers := [], routes := [] },
       { id := "br0", kind := some .bond, backend := none
         addresses := [], nameservers := [], routes := [] }] }

/-- A generated backend artifact on the filesystem: its path, the
identifier of the definition it was generated for, the backend whose
writer produced it, and its content. -/
structure Artifact where
  path : String
  owner : String
  backend : NetplanBackend
  content : String
  deriving DecidableEq, Repr

/-- Outcome of a dispatched per-definition write: `has_been_written`
distinguishes "written" from "not applicable", plus the filesystem writes
performed and whether the backend writer was invoked. -/
structure WriteResult where
  hasBeenWritten : Bool
  artifactsWritten : List Artifact
  writerInvoked : Bool
  deriving DecidableEq, Repr

/-- Modelled from the spec: `applies(definition, backend)` of the backend
dispatcher (§4.4) — true iff the definition's resolved backend equals the
target backend, with virtual-switch definitions also applying to the
virtual-switch backend as a secondary consumer. -/
def applies (d : NetplanNetDefinition) (b : NetplanBackend) : Bool :=
  decide (d.backend = b) ||
    (decide (b = NetplanBackend.ovs) && decide (d.kind = some DefKind.vswitch))

/-- Modelled from the spec: `netplan_netdef_write_networkd` (not in this
repository) — invoke the link-state Backend Writer only when the
definition applies to it; otherwise report "not applicable" without any
filesystem write or writer invocation.  The writer is an external
collaborator, passed as a function. -/
def netplan_netdef_write_networkd
    (writer : NetplanNetDefinition → List Artifact)
    (_s : NetplanState) (d : NetplanNetDefinition) : WriteResult :=
  if applies d .networkd then
    { hasBeenWritten := true, artifactsWritten := writer d
      writerInvoked := true }
  else
    { hasBeenWritten := false, artifactsWritten := [], writerInvoked := false }

/-- `write_networkd_conf` from `src/abi_compat.c`: dispatch the write for
one definition against the link-state backend and return the
`has_been_written` flag. -/
def write_networkd_conf (writer : NetplanNetDefinition → List Artifact)
    (g : Global) (d : NetplanNetDefinition) : Bool × WriteResult :=
  let r := netplan_netdef_write_networkd writer g.state d
  (r.hasBeenWritten, r)

/-- Outcome of a legacy finish/commit wrapper: success, or the
`g_assert` firing (a programming fault, not a recoverable error). -/
inductive FinishOutcome where
  | ok
  | programmingFault
  deriving DecidableEq, Repr

/-- Modelled from the spec: `netplan_state_finish_nm_write` (not in this
repository) — the single aggregate commit of the connection-manager
backend after all per-definition writes: flush the staged directives under
the root directory and succeed (the spec declares the finish pass
infallible; with nothing staged it is a no-op). -/
def netplan_state_finish_nm_write (_s : NetplanState)
    (staged : List Artifact) (root : String) : List Artifact × Bool :=
  (staged.map (fun a => { a with path := root ++ a.path }), true)

/-- Modelled from the spec: `netplan_state_finish_ovs_write` (not in this
repository) — the aggregate commit of the virtual-switch backend, same
contract as the connection-manager one. -/
def netplan_state_finish_ovs_write (_s : NetplanState)
    (staged : List Artifact) (root : String) : List Artifact × Bool :=
  (staged.map (fun a => { a with path := root ++ a.path }), true)

/-- `write_nm_conf_finish` from `src/abi_compat.c`: `g_assert` the
underlying finish — a failure is an assertion (programming fault), never a
returned error. -/
def write_nm_conf_finish (g : Global) (staged : List Artifact)
    (root : String) : FinishOutcome × List Artifact :=
  let (arts, okb) := netplan_state_finish_nm_write g.state staged root
  if okb then (.ok, arts) else (.programmingFault, arts)

/-- `write_ovs_conf_finish` from `src/abi_compat.c`: same shape as the
connection-manager finish wrapper. -/
def write_ovs_conf_finish (g : Global) (staged : List Artifact)
    (root : String) : FinishOutcome × List Artifact :=
  let (arts, okb) := netplan_state_finish_ovs_write g.state staged root
  if okb then (.ok, arts) else (.programmingFault, arts)

/-- The symlink-relevant filesystem: paths that already exist, and paths
whose creation fails with an error other than EEXIST (permissions, ...). -/
structure SymlinkFS where
  existing : List String
  failing : List String
  deriving DecidableEq, Repr

/-- Result of one `symlink(2)` call. -/
inductive SymlinkResult where
  | created
  | eexist
  | failed
  deriving DecidableEq, Repr

/-- `symlink(2)` against the modelled filesystem: EEXIST when the path
already exists, a hard failure when the filesystem refuses the creation,
otherwise the link is created. -/
def symlink (fs : SymlinkFS) (_target : String) (path : String) :
    SymlinkResult × SymlinkFS :=
  if fs.existing.contains path then (.eexist, fs)
  else if fs.failing.contains path then (.failed, fs)
  else (.created, { fs with existing := path :: fs.existing })

/-- The first enablement link of `enable_networkd`. -/
def networkdLink1 (generator_dir : String) : String :=
  generator_dir ++ "/multi-user.target.wants/systemd-networkd.service"

/-- The second enablement link of `enable_networkd`. -/
def networkdLink2 (generator_dir : String) : String :=
  generator_dir ++
    "/network-online.target.wants/systemd-networkd-wait-online.service"

/-- `enable_networkd` from `src/abi_compat.c`: create the two enablement
symlinks; a `symlink` failure with `errno != EEXIST` prints the message
and exits non-zero, while EEXIST falls through as success. -/
def enable_networkd (fs : SymlinkFS) (generator_dir : String) :
    Except Fatal SymlinkFS :=
  match symlink fs "../systemd-networkd.service"
      (networkdLink1 generator_dir) with
  | (.failed, _) => .error ⟨"failed to create enablement symlink"⟩
  | (_, fs1) =>
      match symlink fs1 "/lib/systemd/system/systemd-networkd-wait-online.service"
          (networkdLink2 generator_dir) with
      | (.failed, _) => .error ⟨"failed to create enablement symlink"⟩
      | (_, fs2) => .ok fs2

/-- Is the artifact's owning definition still routed to backend `b` in the
current state? -/
def ownerRouted (s : NetplanState) (b : NetplanBackend) (owner : String) :
    Bool :=
  match findDef s.netdefs owner with
  | some d => applies d b
  | none => false

/-- Modelled from the spec: the cleanup pass of one backend
(`netplan_networkd_cleanup` / `netplan_nm_cleanup` / `netplan_ovs_cleanup`
are not in this repository; §4.5) — remove the artifacts this backend
previously generated whose owners are no longer routed to it; artifacts of
other backends and artifacts of still-routed owners are kept untouched. -/
def cleanupBackend (s : NetplanState) (b : NetplanBackend)
    (arts : List Artifact) : List Artifact :=
  arts.filter (fun a =>
    if a.backend = b then ownerRouted s b a.owner else true)

/-- `cleanup_networkd_conf` from `src/abi_compat.c`. -/
def cleanup_networkd_conf (g : Global) (arts : List Artifact) :
    List Artifact :=
  cleanupBackend g.state .networkd arts

/-- `cleanup_nm_conf` from `src/abi_compat.c`. -/
def cleanup_nm_conf (g : Global) (arts : List Artifact) : List Artifact :=
  cleanupBackend g.state .nm arts

/-- `cleanup_ovs_conf` from `src/abi_compat.c`. -/
def cleanup_ovs_conf (g : Global) (arts : List Artifact) : List Artifact :=
  cleanupBackend g.state .ovs arts

/-- Modelled from the spec: `netplan_parser_load_yaml_hierarchy` (not in
this repository; §4.1) — load the hierarchy's documents, given here
already enumerated in precedence order, in that exact order into the
shared accumulator, aborting on the first error. -/
def netplan_parser_load_yaml_hierarchy (p : NetplanParser)
    (files : List YamlFile) : Except CoreError NetplanParser :=
  files.foldlM netplan_parser_load_yaml p

/-- `process_yaml_hierarchy` from `src/abi_compat.c`: load the hierarchy
into the global parser; on error print the message and `exit(1)`. -/
def process_yaml_hierarchy (g : Global) (files : List YamlFile) :
    Except Fatal Global :=
  match netplan_parser_load_yaml_hierarchy g.parser files with
  | .ok p' => .ok { g with parser := p' }
  | .error e => .error ⟨errorMessage e⟩

/-- The merge-invariant fields of a definition: everything except the
origin filename (which necessarily changes across an emit/reload). -/
def defCore (d : NetplanNetDefinition) :
    String × Option DefKind × NetplanBackend ×
      List String × List String × List String :=
  (d.id, d.kind, d.backend, d.addresses, d.nameservers, d.routes)

/-- One table entry under the merge-invariant projection. -/
def entryCore (e : String × NetplanNetDefinition) :=
  (e.1, defCore e.2)

/-- Validity of one imported table entry: keyed by its own non-empty
identifier, backend resolved, and list fields stored de-duplicated in
first-seen order — the invariant import establishes (spec §3, §4.3). -/
def validEntry (e : String × NetplanNetDefinition) : Bool :=
  decide (e.1 = e.2.id) && !(decide (e.2.id = "")) &&
  !(decide (e.2.backend = NetplanBackend.unset)) &&
  decide (dedupKeepFirst e.2.addresses = e.2.addresses) &&
  decide (dedupKeepFirst e.2.nameservers = e.2.nameservers) &&
  decide (dedupKeepFirst e.2.routes = e.2.routes)

/-- All identifiers of a definition table are distinct. -/
def distinctKeys : List (String × NetplanNetDefinition) → Bool
  | [] => true
  | (i, _) :: rest =>
      !(decide (i ∈ rest.map Prod.fst)) && distinctKeys rest

/-- A valid State: every entry valid and all keys distinct. -/
def stateValid (s : NetplanState) : Bool :=
  s.netdefs.all validEntry && distinctKeys s.netdefs

/-- The round trip of C9: emit the State to the declarative format, reload
the emitted document through the Hierarchy Loader into fresh globals, and
import; `none` when any step fails. -/
def roundTrip (s : NetplanState) (file_hint : String) :
    Option NetplanState :=
  match process_yaml_hierarchy emptyGlobal
      [netplan_state_write_yaml s file_hint] with
  | .error _ => none
  | .ok g =>
      match netplan_finish_parse g with
      | (g', some _) => some g'.state
      | (_, none) => none

/-- A concrete link-state writer used by witnesses: one artifact per
definition. -/
def writerX (d : NetplanNetDefinition) : List Artifact :=
  [{ path := "/run/systemd/network/10-netplan-" ++ d.id ++ ".network"
     owner := d.id, backend := .networkd, content := "cfg" }]

/-- A definition routed to the connection manager (not applicable to the
link-state backend). -/
def dNM : NetplanNetDefinition :=
  { id := "wlan0", kind := some .wifi, backend := .nm
    addresses := [], nameservers := [], routes := [], filename := "n.yaml" }

/-- A definition routed to the link-state backend. -/
def dND : NetplanNetDefinition :=
  { id := "eth2", kind := some .ethernet, backend := .networkd
    addresses := [], nameservers := [], routes := [], filename := "n.yaml" }

/-- A definition routed to the virtual-switch backend. -/
def dOVS : NetplanNetDefinition :=
  { id := "ovs0", kind := some .vswitch, backend := .ovs
    addresses := [], nameservers := [], routes := [], filename := "o.yaml" }

/-- Modelled from the spec: `netplan_netdef_write_nm` (not in this
repository) — invoke the connection-manager Backend Writer when the
definition applies to that backend; a writer failure propagates with its
message (spec §4.4: all writer invocation failures propagate). -/
def netplan_netdef_write_nm
    (writer : NetplanNetDefinition → Except String (List Artifact))
    (_s : NetplanState) (d : NetplanNetDefinition) :
    Except String (List Artifact) :=
  if applies d .nm then writer d else .ok []

/-- Modelled from the spec: `netplan_netdef_write_ovs` (not in this
repository) — same contract as the connection-manager one, for the
virtual-switch backend. -/
def netplan_netdef_write_ovs
    (writer : NetplanNetDefinition → Except String (List Artifact))
    (_s : NetplanState) (d : NetplanNetDefinition) :
    Except String (List Artifact) :=
  if applies d .ovs then writer d else .ok []

/-- `write_nm_conf` from `src/abi_compat.c`: write one definition via the
connection-manager writer; on failure print `error->message` and
`exit(1)`. -/
def write_nm_conf
    (writer : NetplanNetDefinition → Except String (List Artifact))
    (g : Global) (d : NetplanNetDefinition) : Except Fatal (List Artifact) :=
  match netplan_netdef_write_nm writer g.state d with
  | .ok arts => .ok arts
  | .error msg => .error ⟨msg⟩

/-- `write_ovs_conf` from `src/abi_compat.c`: write one definition via the
virtual-switch writer; on failure print `error->message` and `exit(1)`. -/
def write_ovs_conf
    (writer : NetplanNetDefinition → Except String (List Artifact))
    (g : Global) (d : NetplanNetDefinition) : Except Fatal (List Artifact) :=
  match netplan_netdef_write_ovs writer g.state d with
  | .ok arts => .ok arts
  | .error msg => .error ⟨msg⟩

/-- A concrete always-failing backend writer used by witnesses. -/
def failWriter (_d : NetplanNetDefinition) :
    Except String (List Artifact) :=
  .error "cannot write config"

/-- A networkd artifact owned by `dND`, used by the cleanup witness. -/
def artND : Artifact :=
  { path := "/run/systemd/network/10-netplan-eth2.network"
    owner := "eth2", backend := .networkd, content := "cfg" }

/-- Globals whose state routes `dND` to the link-state backend. -/
def gArt : Global :=
  { state := { netdefs := [("eth2", dND)], backend := .unset }
    parser := emptyParser }

/-- A filesystem on which both enablement links already exist. -/
def fsBoth : SymlinkFS :=
  { existing := [networkdLink1 "/run/gen", networkdLink2 "/run/gen"]
    failing := [] }

/-- A filesystem on which creating the first enablement link fails with an
error other than EEXIST. -/
def fsFail1 : SymlinkFS :=
  { existing := [], failing := [networkdLink1 "/run/gen"] }

/-- A filesystem on which the first link exists and creating the second
fails with an error other than EEXIST. -/
def fsFail2 : SymlinkFS :=
  { existing := [networkdLink1 "/run/gen"]
    failing := [networkdLink2 "/run/gen"] }

/-- A concrete valid imported State used by the round-trip witness. -/
def sRT : NetplanState :=
  { netdefs :=
      [("eth0",
        { id := "eth0", kind := some .ethernet, backend := .networkd
          addresses := ["10.0.0.1"], nameservers := ["8.8.8.8"]
          routes := ["default via 10.0.0.254"], filename := "orig.yaml" }),
       ("br0",
        { id := "br0", kind := some .bridge, backend := .nm
          addresses := [], nameservers := [], routes := []
          filename := "orig.yaml" })]
    backend := .networkd }

end Netplan

namespace Netplan

/-- On an import error, `netplan_finish_parse` returns the globals
unchanged together with NULL. -/
theorem finish_parse_error_eq (g : Global) (e : CoreError)
    (h : netplan_state_import_parser_results g.state g.parser = .error e) :
    netplan_finish_parse g = (g, none) := by
  unfold netplan_finish_parse
  rw [h]

/-- C1: loading fragment A = `{id: eth0, kind: ethernet, backend: unset,
addresses: [10.0.0.1]}` and then fragment B = `{id: eth0, addresses:
[10.0.0.2], backend: connection-manager}` through `netplan_parse_yaml`
yields a definition whose scalar `backend` was overwritten by the later
fragment (`connection-manager`) and whose `addresses` list is the
first-seen-order de-duplicated union `[10.0.0.1, 10.0.0.2]`. -/
theorem parse_yaml_merge_scenario :
    mergeScenarioResult.map
        (fun d => (d.kind, d.backend, d.addresses)) =
      some (some DefKind.ethernet, NetplanBackend.nm,
        ["10.0.0.1", "10.0.0.2"]) := by
  rfl

/-- C2: import is consuming — a successful `netplan_finish_parse` leaves
the global parser accumulator reset, and a second call without reloading
any source yields an empty State (its table is `some []`, not a copy of
the first result). -/
theorem finish_parse_consuming (g : Global)
    (tbl : List (String × NetplanNetDefinition))
    (h : (netplan_finish_parse g).2 = some tbl) :
    (netplan_finish_parse g).1.parser = emptyParser ∧
    netplan_finish_parse (netplan_finish_parse g).1 =
      ({ state := emptyState, parser := emptyParser }, some []) := by
  unfold netplan_finish_parse at h ⊢
  unfold netplan_state_import_parser_results at h ⊢
  cases hv : validateAll g.parser.globalBackend g.parser.netdefs with
  | error e => rw [hv] at h; simp at h
  | ok t => simp [emptyParser, validateAll, emptyState]

/-- Witness for C2 at a concrete populated accumulator. -/
theorem finish_parse_consuming_witness :
    (netplan_finish_parse gW).1.parser = emptyParser ∧
    netplan_finish_parse (netplan_finish_parse gW).1 =
      ({ state := emptyState, parser := emptyParser }, some []) :=
  finish_parse_consuming gW [("eth0", resolveDef .unset defW)] (by rfl)

/-- C3: import is atomic — when the accumulator fails validation,
`netplan_finish_parse` returns NULL (`none`) and both the previously
imported State and the accumulator are left exactly as they were. -/
theorem finish_parse_atomic (g : Global) (e : CoreError)
    (h : netplan_state_import_parser_results g.state g.parser = .error e) :
    netplan_finish_parse g = (g, none) :=
  finish_parse_error_eq g e h

/-- Witness for C3 at a concrete failing accumulator. -/
theorem finish_parse_atomic_witness :
    netplan_finish_parse gBad = (gBad, none) :=
  finish_parse_atomic gBad (.validationError "") (by rfl)

/-- C10: `netplan_clear_netdefs` resets both the global State and the
global parser accumulator and returns the number of definitions the State
held immediately before the reset. -/
theorem clear_netdefs_resets (g : Global) :
    netplan_clear_netdefs g =
      ({ state := emptyState, parser := emptyParser },
        netplan_state_get_netdefs_size g.state) :=
  rfl

/-- C5 counterexample: on a global pair whose accumulator fails import
validation, `write_netplan_conf_full` surfaces no error (its result type
has no error side — in C it passes a NULL `GError**` and drops the return
value) and still emits a non-empty YAML document for the prior State, i.e.
it proceeds as if the import had succeeded instead of reporting the
failure. -/
theorem write_conf_full_swallows_import_error :
    netplan_state_import_parser_results gBad.state gBad.parser =
        .error (.validationError "") ∧
    write_netplan_conf_full "out.yaml" gBad =
      (gBad, netplan_state_write_yaml gBad.state "out.yaml") ∧
    (netplan_state_write_yaml gBad.state "out.yaml").fragments ≠ [] := by
  refine ⟨rfl, rfl, by decide⟩

/-- C5 as amended: errors in load and write steps are reported at the
legacy boundary — `process_input_file` prints a load error's message and
exits non-zero, and `write_nm_conf` / `write_ovs_conf` print a writer
failure's message and exit non-zero — but `write_netplan_conf_full`
discards the failure of its internal import step and proceeds to emit
YAML for the previously imported State. -/
theorem legacy_error_reporting (g : Global) (f : YamlFile) (e : CoreError)
    (h : netplan_parser_load_yaml g.parser f = .error e)
    (writer : NetplanNetDefinition → Except String (List Artifact))
    (gw : Global) (dw : NetplanNetDefinition) (msg : String)
    (hw : netplan_netdef_write_nm writer gw.state dw = .error msg)
    (gv : Global) (dv : NetplanNetDefinition) (msgv : String)
    (hv : netplan_netdef_write_ovs writer gv.state dv = .error msgv)
    (g2 : Global) (e2 : CoreError) (hint : String)
    (h2 : netplan_state_import_parser_results g2.state g2.parser =
      .error e2) :
    process_input_file g f = .error ⟨errorMessage e⟩ ∧
    write_nm_conf writer gw dw = .error ⟨msg⟩ ∧
    write_ovs_conf writer gv dv = .error ⟨msgv⟩ ∧
    write_netplan_conf_full hint g2 =
      (g2, netplan_state_write_yaml g2.state hint) := by
  refine ⟨?_, ?_, ?_, ?_⟩
  · unfold process_input_file
    rw [h]
  · unfold write_nm_conf
    rw [hw]
  · unfold write_ovs_conf
    rw [hv]
  · unfold write_netplan_conf_full
    rw [finish_parse_error_eq g2 e2 h2]

/-- Witness for the amended C5: a conflicting document is reported
fatally by `process_input_file`, failing connection-manager and
virtual-switch writers are reported fatally by their write wrappers,
while `write_netplan_conf_full` on a failing accumulator silently emits
the prior State. -/
theorem legacy_error_reporting_witness :
    process_input_file emptyGlobal fileConflict =
      .error ⟨errorMessage (.conflictError "br0")⟩ ∧
    write_nm_conf failWriter emptyGlobal dNM =
      .error ⟨"cannot write config"⟩ ∧
    write_ovs_conf failWriter emptyGlobal dOVS =
      .error ⟨"cannot write config"⟩ ∧
    write_netplan_conf_full "out.yaml" gBad =
      (gBad, netplan_state_write_yaml gBad.state "out.yaml") :=
  legacy_error_reporting emptyGlobal fileConflict (.conflictError "br0")
    (by rfl) failWriter emptyGlobal dNM "cannot write config" (by rfl)
    emptyGlobal dOVS "cannot write config" (by rfl)
    gBad (.validationError "") "out.yaml" (by rfl)

/-- C4: `write_networkd_conf` returns true iff the definition's resolved
backend makes it applicable to the link-state backend; when not
applicable, no filesystem write is performed and the Backend Writer is
not invoked — for any writer. -/
theorem write_networkd_applicability
    (writer : NetplanNetDefinition → List Artifact) (g : Global)
    (d : NetplanNetDefinition) :
    ((write_networkd_conf writer g d).1 = true ↔
      applies d .networkd = true) ∧
    (applies d .networkd = false →
      (write_networkd_conf writer g d).2.artifactsWritten = [] ∧
      (write_networkd_conf writer g d).2.writerInvoked = false) := by
  unfold write_networkd_conf netplan_netdef_write_networkd
  cases h : applies d .networkd <;> simp [h]

/-- Witness for C4: a connection-manager definition is reported not
applicable by the link-state write, with no artifact written and the
writer not invoked. -/
theorem write_networkd_applicability_witness :
    (write_networkd_conf writerX emptyGlobal dNM).2.artifactsWritten = [] ∧
    (write_networkd_conf writerX emptyGlobal dNM).2.writerInvoked = false :=
  (write_networkd_applicability writerX emptyGlobal dNM).2 (by decide)

/-- C6: the per-backend finish/commit wrappers are infallible in the
legacy contract — `write_nm_conf_finish` and `write_ovs_conf_finish`
never surface a recoverable error (an internal failure would be the
`g_assert`, a programming fault, and the modelled finish never fails) —
and calling finish with nothing staged for that backend writes nothing. -/
theorem conf_finish_infallible (g : Global) (staged : List Artifact)
    (root : String) :
    (write_nm_conf_finish g staged root).1 = .ok ∧
    (write_ovs_conf_finish g staged root).1 = .ok ∧
    (staged = [] →
      (write_nm_conf_finish g staged root).2 = [] ∧
      (write_ovs_conf_finish g staged root).2 = []) := by
  refine ⟨rfl, rfl, ?_⟩
  rintro rfl
  exact ⟨rfl, rfl⟩

/-- Witness for C6 with no prior writes staged. -/
theorem conf_finish_infallible_witness :
    (write_nm_conf_finish emptyGlobal [] "/r").2 = [] ∧
    (write_ovs_conf_finish emptyGlobal [] "/r").2 = [] :=
  (conf_finish_infallible emptyGlobal [] "/r").2.2 rfl

/-- C7: `enable_networkd` succeeds when both enablement symlinks already
exist (EEXIST is success), while a symlink failure other than EEXIST — on
either link — is fatal to the run (message printed, non-zero exit). -/
theorem enable_networkd_idempotent (fs : SymlinkFS)
    (generator_dir : String) :
    (networkdLink1 generator_dir ∈ fs.existing →
     networkdLink2 generator_dir ∈ fs.existing →
     enable_networkd fs generator_dir = .ok fs) ∧
    (networkdLink1 generator_dir ∉ fs.existing →
     networkdLink1 generator_dir ∈ fs.failing →
     enable_networkd fs generator_dir =
       .error ⟨"failed to create enablement symlink"⟩) ∧
    (networkdLink1 generator_dir ∈ fs.existing →
     networkdLink2 generator_dir ∉ fs.existing →
     networkdLink2 generator_dir ∈ fs.failing →
     enable_networkd fs generator_dir =
       .error ⟨"failed to create enablement symlink"⟩) := by
  refine ⟨?_, ?_, ?_⟩
  · intro h1 h2
    simp [enable_networkd, symlink, h1, h2]
  · intro h1 h2
    simp [enable_networkd, symlink, h1, h2]
  · intro h1 h2 h3
    simp [enable_networkd, symlink, h1, h2, h3]

/-- Witness for C7: pre-existing links succeed; a non-EEXIST failure on
the first or on the second link is fatal. -/
theorem enable_networkd_idempotent_witness :
    enable_networkd fsBoth "/run/gen" = .ok fsBoth ∧
    enable_networkd fsFail1 "/run/gen" =
      .error ⟨"failed to create enablement symlink"⟩ ∧
    enable_networkd fsFail2 "/run/gen" =
      .error ⟨"failed to create enablement symlink"⟩ :=
  ⟨(enable_networkd_idempotent fsBoth "/run/gen").1 (by decide) (by decide),
   (enable_networkd_idempotent fsFail1 "/run/gen").2.1 (by decide) (by decide),
   (enable_networkd_idempotent fsFail2 "/run/gen").2.2 (by decide) (by decide)
     (by decide)⟩

/-- C8: no cleanup pass deletes an artifact whose owning definition's
resolved backend is still the backend being cleaned — such artifacts
survive `cleanup_networkd_conf`, `cleanup_nm_conf` and
`cleanup_ovs_conf` regardless of their content. -/
theorem cleanup_preserves_routed (g : Global) (arts : List Artifact)
    (a : Artifact) (d : NetplanNetDefinition)
    (ha : a ∈ arts)
    (hd : findDef g.state.netdefs a.owner = some d) :
    (d.backend = .networkd → a ∈ cleanup_networkd_conf g arts) ∧
    (d.backend = .nm → a ∈ cleanup_nm_conf g arts) ∧
    (d.backend = .ovs → a ∈ cleanup_ovs_conf g arts) := by
  refine ⟨?_, ?_, ?_⟩ <;> intro hb <;>
    · simp only [cleanup_networkd_conf, cleanup_nm_conf, cleanup_ovs_conf,
        cleanupBackend, List.mem_filter]
      refine ⟨ha, ?_⟩
      by_cases hab : a.backend = d.backend <;>
        simp [hab, hb, ownerRouted, hd, applies]

/-- Witness for C8: a networkd artifact whose owner is still routed to
networkd survives the networkd cleanup. -/
theorem cleanup_preserves_routed_witness :
    artND ∈ cleanup_networkd_conf gArt [artND] :=
  (cleanup_preserves_routed gArt [artND] artND dND (by decide)
    (by rfl)).1 (by decide)

/-- Lookup distributes over append when the key is absent on the left. -/
theorem findDef_append_of_none (xs ys : List (String × NetplanNetDefinition))
    (k : String) (h : findDef xs k = none) :
    findDef (xs ++ ys) k = findDef ys k := by
  induction xs with
  | nil => rfl
  | cons e rest ih =>
    obtain ⟨i, d⟩ := e
    by_cases hik : i = k
    · simp [findDef, hik] at h
    · rw [List.cons_append]
      simp only [findDef, if_neg hik] at h ⊢
      exact ih h

/-- Binding a successful `Except` computation applies the continuation. -/
theorem exceptOkBind {ε α β : Type} (a : α) (f : α → Except ε β) :
    (Except.ok a >>= f : Except ε β) = f a :=
  rfl

/-- A resolved backend is left unchanged by backend inference. -/
theorem resolveBackend_resolved (g b : NetplanBackend)
    (h : b ≠ NetplanBackend.unset) : resolveBackend g b = b := by
  cases b <;> simp_all [resolveBackend]

/-- A definition with a resolved backend is a fixed point of `resolveDef`. -/
theorem resolveDef_resolved (g : NetplanBackend) (d : NetplanNetDefinition)
    (h : d.backend ≠ NetplanBackend.unset) : resolveDef g d = d := by
  unfold resolveDef
  rw [resolveBackend_resolved g d.backend h]

/-- Validation succeeds and changes nothing on a table whose definitions
have non-empty identifiers and resolved backends. -/
theorem validateAll_of_resolved (g : NetplanBackend)
    (tbl : List (String × NetplanNetDefinition))
    (h : ∀ e ∈ tbl, e.2.id ≠ "" ∧ e.2.backend ≠ NetplanBackend.unset) :
    validateAll g tbl = .ok tbl := by
  induction tbl with
  | nil => rfl
  | cons e rest ih =>
    obtain ⟨i, d⟩ := e
    obtain ⟨h1, h2⟩ := h (i, d) (by simp)
    unfold validateAll
    rw [if_neg h1, ih (fun e' he' => h e' (by simp [he']))]
    show Except.ok ((i, resolveDef g d) :: rest) = Except.ok ((i, d) :: rest)
    rw [resolveDef_resolved g d h2]

/-- Loading the fragments of a table of fresh, distinct identifiers into
an accumulator appends the rebuilt definitions in order. -/
theorem load_fresh_appends (file : String)
    (tbl : List (String × NetplanNetDefinition)) (p : NetplanParser)
    (hid : ∀ e ∈ tbl, e.1 = e.2.id)
    (hdk : distinctKeys tbl = true)
    (hdisj : ∀ e ∈ tbl, findDef p.netdefs e.1 = none) :
    (tbl.map (fun e => fragOfDef e.2)).foldlM (loadFragment file) p =
      .ok { netdefs := p.netdefs ++
              tbl.map (fun e => (e.1, defOfFragment file (fragOfDef e.2)))
            globalBackend := p.globalBackend } := by
  induction tbl generalizing p with
  | nil =>
    cases p
    simp only [List.map_nil, List.foldlM_nil, List.append_nil]
    rfl
  | cons e rest ih =>
    obtain ⟨i, d⟩ := e
    have hie : i = d.id := hid (i, d) (by simp)
    subst hie
    have hfind : findDef p.netdefs (fragOfDef d).id = none :=
      hdisj (d.id, d) (by simp)
    have hstep : loadFragment file p (fragOfDef d) =
        .ok ⟨p.netdefs ++ [(d.id, defOfFragment file (fragOfDef d))],
          p.globalBackend⟩ := by
      unfold loadFragment
      rw [hfind]
      rfl
    simp only [distinctKeys, Bool.and_eq_true, Bool.not_eq_true',
      decide_eq_false_iff_not] at hdk
    obtain ⟨hnotin, hdkr⟩ := hdk
    have hdisj' : ∀ e' ∈ rest,
        findDef (p.netdefs ++ [(d.id, defOfFragment file (fragOfDef d))])
          e'.1 = none := by
      intro e' he'
      rw [findDef_append_of_none _ _ _
        (hdisj e' (List.mem_cons_of_mem _ he'))]
      have hne : d.id ≠ e'.1 := fun hc =>
        hnotin (hc ▸ List.mem_map_of_mem Prod.fst he')
      simp [findDef, hne]
    have hrest := ih
      ⟨p.netdefs ++ [(d.id, defOfFragment file (fragOfDef d))],
        p.globalBackend⟩
      (fun e' he' => hid e' (List.mem_cons_of_mem _ he')) hdkr hdisj'
    simp only [List.map_cons, List.foldlM_cons, hstep, exceptOkBind]
    rw [hrest]
    simp [List.append_assoc]

/-- Rebuilding a valid entry through emit-then-load preserves its
merge-invariant core. -/
theorem entryCore_rebuild (file : String)
    (e : String × NetplanNetDefinition) (h : validEntry e = true) :
    entryCore (e.1, defOfFragment file (fragOfDef e.2)) = entryCore e := by
  obtain ⟨i, d⟩ := e
  simp only [validEntry, Bool.and_eq_true, decide_eq_true_eq,
    Bool.not_eq_true', decide_eq_false_iff_not] at h
  obtain ⟨⟨⟨⟨⟨hkey, hid⟩, hb⟩, ha⟩, hn⟩, hr⟩ := h
  simp [entryCore, defCore, defOfFragment, fragOfDef, ha, hn, hr]

/-- C9: round trip — emitting a valid State through the YAML Emitter and
re-loading the emitted document through the Hierarchy Loader and import
produces a Definition Table equal to the original under the
merge-invariant fields (everything except the origin filename). -/
theorem emit_reload_roundtrip (s : NetplanState) (hint : String)
    (h : stateValid s = true) :
    ∃ s', roundTrip s hint = some s' ∧
      s'.netdefs.map entryCore = s.netdefs.map entryCore := by
  have hparts : s.netdefs.all validEntry = true ∧
      distinctKeys s.netdefs = true := by
    simpa [stateValid, Bool.and_eq_true] using h
  have hall : ∀ e ∈ s.netdefs, validEntry e = true :=
    List.all_eq_true.mp hparts.1
  have hid : ∀ e ∈ s.netdefs, e.1 = e.2.id := by
    intro e he
    have hv := hall e he
    simp only [validEntry, Bool.and_eq_true, decide_eq_true_eq] at hv
    exact hv.1.1.1.1.1
  have hload := load_fresh_appends hint s.netdefs emptyParser hid hparts.2
    (fun _ _ => rfl)
  have h1 : netplan_parser_load_yaml emptyGlobal.parser
      (netplan_state_write_yaml s hint) =
      .ok ⟨s.netdefs.map
            (fun e => (e.1, defOfFragment hint (fragOfDef e.2))),
          .unset⟩ :=
    hload
  have h2 : process_yaml_hierarchy emptyGlobal
      [netplan_state_write_yaml s hint] =
      .ok { state := emptyState
            parser := ⟨s.netdefs.map
                (fun e => (e.1, defOfFragment hint (fragOfDef e.2))),
              .unset⟩ } := by
    unfold process_yaml_hierarchy netplan_parser_load_yaml_hierarchy
    simp only [List.foldlM_cons, List.foldlM_nil, h1, exceptOkBind]
    rfl
  have h3 : validateAll NetplanBackend.unset
      (s.netdefs.map (fun e => (e.1, defOfFragment hint (fragOfDef e.2)))) =
      .ok (s.netdefs.map
        (fun e => (e.1, defOfFragment hint (fragOfDef e.2)))) := by
    apply validateAll_of_resolved
    intro e' he'
    obtain ⟨e, he, rfl⟩ := List.mem_map.mp he'
    have hv := hall e he
    simp only [validEntry, Bool.and_eq_true, decide_eq_true_eq,
      Bool.not_eq_true', decide_eq_false_iff_not] at hv
    exact ⟨hv.1.1.1.1.2, hv.1.1.1.2⟩
  have h4 : netplan_finish_parse
      { state := emptyState
        parser := ⟨s.netdefs.map
            (fun e => (e.1, defOfFragment hint (fragOfDef e.2))),
          .unset⟩ } =
      ({ state := ⟨s.netdefs.map
              (fun e => (e.1, defOfFragment hint (fragOfDef e.2))),
            .unset⟩
         parser := emptyParser },
        some (s.netdefs.map
          (fun e => (e.1, defOfFragment hint (fragOfDef e.2))))) := by
    unfold netplan_finish_parse netplan_state_import_parser_results
    simp only [h3]
  refine ⟨⟨s.netdefs.map
      (fun e => (e.1, defOfFragment hint (fragOfDef e.2))), .unset⟩, ?_, ?_⟩
  · unfold roundTrip
    rw [h2]
    simp only [h4]
  · simp only [List.map_map]
    exact List.map_congr_left
      (fun e he => entryCore_rebuild hint e (hall e he))

/-- Witness for C9 at a concrete two-definition State. -/
theorem emit_reload_roundtrip_witness :
    stateValid sRT = true ∧
    ∃ s', roundTrip sRT "out.yaml" = some s' ∧
      s'.netdefs.map entryCore = sRT.netdefs.map entryCore :=
  ⟨by decide, emit_reload_roundtrip sRT "out.yaml" (by decide)⟩

end Netplan
